import Mathlib

/-!
Verification development for the query-routing core of a Pakistani-law
chatbot (source: `src/app.py`).

The embedding mirrors the source:
- `extract_article_number` embeds the Python function of the same name,
  built on the regexes `\barticle\s+(\d{1,3})\b` (case-insensitive) and
  `\b(\d{1,3})\b` together with the substring test
  `"article" in text.lower()`.  The regex semantics (leftmost search,
  greedy `{1,3}` with backtracking against the trailing `\b`) are spelled
  out as executable scanning functions over the character list.
  Character classes are the ASCII ones (`\d` = 0-9, `\w` = alphanumeric or
  underscore, `\s` = space, tab, newline, carriage return, vertical tab,
  form feed); inputs are modelled as sequences of those characters.
- `load_constitution_json`, `handle_article_query`,
  `render_article_response` and the routing block are embedded as pure
  functions; the Streamlit session history becomes an explicit list, the
  LLM chain an opaque function argument.
-/

namespace PakLaw

/-- ASCII whitespace, the character class `\s` of the Python regexes. -/
def isSpaceChar (c : Char) : Bool :=
  c == ' ' || c == '\t' || c == '\n' || c == '\r' || c == '\x0b' || c == '\x0c'

/-- Word characters, the character class `\w` used by `\b` boundaries. -/
def isWordChar (c : Char) : Bool :=
  c.isAlphanum || c == '_'

/-- `\b` test for the position at the head of `l`: the next character is
absent or not a word character. -/
def headBoundary : List Char → Bool
  | [] => true
  | c :: _ => !(isWordChar c)

/-- Numeric value of a digit string, as computed by Python `int`. -/
def digitsToNat (l : List Char) : Nat :=
  l.foldl (fun a c => 10 * a + (c.toNat - 48)) 0

/-- `str(int(ds))`: canonical decimal text of the captured digits
(leading zeros stripped). -/
def canonNum (ds : List Char) : String :=
  toString (digitsToNat ds)

/-- One backtracking step of `(\d{1,3})\b`: try to consume exactly `j`
digits and then require a word boundary. -/
def tryLen (l : List Char) (j : Nat) : Option (List Char) :=
  if (l.take j).length = j ∧ (l.take j).all Char.isDigit ∧ headBoundary (l.drop j) = true
  then some (l.take j) else none

/-- `(\d{1,3})\b` at the current position: greedy, backtracking from
three digits down to one. -/
def matchDigitsB (l : List Char) : Option (List Char) :=
  match tryLen l 3 with
  | some r => some r
  | none =>
    match tryLen l 2 with
    | some r => some r
    | none => tryLen l 1

/-- Case-insensitive literal prefix match: consumes `pat` (given in
lowercase) off the front of `l`, returning the rest. -/
def stripPrefixCI : List Char → List Char → Option (List Char)
  | [], l => some l
  | _ :: _, [] => none
  | p :: ps, c :: cs => if Char.toLower c = p then stripPrefixCI ps cs else none

def articleChars : List Char := "article".data

/-- The body of `ARTICLE_PATTERN = \barticle\s+(\d{1,3})\b` (IGNORECASE)
tried at one position.  `prevWord` says whether the preceding character
is a word character (for the leading `\b`). -/
def tryArticleNumAt (prevWord : Bool) (l : List Char) : Option (List Char) :=
  if prevWord then none else
  match stripPrefixCI articleChars l with
  | none => none
  | some rest =>
    -- `\s+` is greedy; fewer-than-maximal spaces can never be followed by
    -- a digit (the next character would be another space), so the
    -- maximal space run is the only candidate.
    match rest.takeWhile isSpaceChar with
    | [] => none
    | sp@(_ :: _) => matchDigitsB (rest.drop sp.length)

/-- The pattern `\b(\d{1,3})\b` tried at one position. -/
def tryBareNumAt (prevWord : Bool) (l : List Char) : Option (List Char) :=
  if prevWord then none else matchDigitsB l

/-- `re.search`: try the position matcher at each position from the left,
threading whether the previous character was a word character. -/
def scanList (T : Bool → List Char → Option (List Char)) :
    Bool → List Char → Option (List Char)
  | _, [] => none
  | p, c :: rest =>
    match T p (c :: rest) with
    | some r => some r
    | none => scanList T (isWordChar c) rest

/-- Substring containment: `pat` occurs contiguously in the list. -/
def containsSeq (pat : List Char) : List Char → Bool
  | [] => pat.isEmpty
  | c :: rest => pat.isPrefixOf (c :: rest) || containsSeq pat rest

/-- `"article" in text.lower()`. -/
def containsArticle (text : String) : Bool :=
  containsSeq articleChars (text.data.map Char.toLower)

/-- Embedding of `extract_article_number` (src/app.py lines 137-145):
search for `\barticle\s+(\d{1,3})\b` case-insensitively and return the
digits normalized by `str(int(_))`; otherwise, if a standalone 1-3 digit
number exists and `"article"` occurs in the lowercased text, return that
number normalized; otherwise nothing. -/
def extract_article_number (text : String) : Option String :=
  match scanList tryArticleNumAt false text.data with
  | some ds => some (canonNum ds)
  | none =>
    match scanList tryBareNumAt false text.data with
    | some ds => if containsArticle text then some (canonNum ds) else none
    | none => none

/-!
Spec-side formulation of the extractor (component 4.1 of the spec),
written from the claim's words: "the first case-insensitive match of
'article' followed by 1-3 digits, with leading zeros stripped; otherwise,
if the word 'article' occurs anywhere in the text and a standalone 1-3
digit number occurs anywhere, the first such standalone number (leading
zeros stripped); otherwise no result."  "First" is rendered as the first
position (scanning left to right) carrying a match; "standalone 1-3 digit
number" as a maximal digit run of length 1 to 3 delimited by word
boundaries.
-/

/-- Whether the character before position `i` is a word character, `p`
being the convention for position 0. -/
def prevFlag (p : Bool) (l : List Char) : Nat → Bool
  | 0 => p
  | i + 1 =>
    match l.get? i with
    | some c => isWordChar c
    | none => false

/-- First position (left to right) at which the position matcher `T`
produces a value. -/
def firstMatch (T : Bool → List Char → Option (List Char))
    (p : Bool) (l : List Char) : Option (List Char) :=
  (List.range l.length).findSome? (fun i => T (prevFlag p l i) (l.drop i))

/-- A standalone 1-3 digit number at the head of `l`: the maximal digit
run has length 1 to 3 and is followed by a word boundary. -/
def maxDigitRun (l : List Char) : Option (List Char) :=
  let ds := l.takeWhile Char.isDigit
  if 1 ≤ ds.length ∧ ds.length ≤ 3 ∧ headBoundary (l.drop ds.length) = true
  then some ds else none

/-- Spec reading of the primary pattern at one position: the word
"article" (case-insensitively, not preceded by a word character),
whitespace, then a 1-3 digit number. -/
def specArticleNumAt (prevWord : Bool) (l : List Char) : Option (List Char) :=
  if prevWord then none else
  if (l.take 7).map Char.toLower = articleChars then
    let rest := l.drop 7
    let sp := rest.takeWhile isSpaceChar
    if 1 ≤ sp.length then maxDigitRun (rest.drop sp.length) else none
  else none

/-- Spec reading of a standalone number at one position. -/
def specBareNumAt (prevWord : Bool) (l : List Char) : Option (List Char) :=
  if prevWord then none else maxDigitRun l

/-- The extractor as the spec describes it. -/
def extract_spec (text : String) : Option String :=
  match firstMatch specArticleNumAt false text.data with
  | some ds => some (canonNum ds)
  | none =>
    match firstMatch specBareNumAt false text.data with
    | some ds => if containsArticle text then some (canonNum ds) else none
    | none => none

/-!
Knowledge base.  A KB record carries the fields of the JSON objects in
`src/app.py`; entries coming from a file with missing fields are modelled
as already carrying the defaults `entry.get(...)` would supply.
-/

structure ArticleEntry where
  title : String
  text : String
  summary : String
  examples : List String
  related : List String
deriving DecidableEq

/-- Python `str.strip()` over the ASCII whitespace characters. -/
def pyStripList (l : List Char) : List Char :=
  ((l.dropWhile isSpaceChar).reverse.dropWhile isSpaceChar).reverse

/-- Python `str.strip()` on strings. -/
def pyStrip (s : String) : String :=
  ⟨pyStripList s.data⟩

def entry176 : ArticleEntry :=
  { title := "Constitution of Supreme Court"
    text := "The Supreme Court shall consist of a Chief Justice, to be known as the Chief Justice of Pakistan, and so many other Judges as may be determined by Act of Majlis-e-Shoora (Parliament) or, until so determined, as may be fixed by the President."
    summary := "Sets the composition of the Supreme Court (CJP + other judges determined by Parliament or temporarily by the President)."
    examples := ["Parliament may increase the number of Supreme Court judges to reduce backlog—permitted under Article 176.",
                 "Until Parliament fixes a number, the President may set the number of judges."]
    related := ["175", "177", "178"] }

def entry89 : ArticleEntry :=
  { title := "Power of President to promulgate Ordinances"
    text := "The President may promulgate an Ordinance when the National Assembly is not in session if satisfied that circumstances exist which render it necessary to take immediate action. Ordinances have the force of law but must be laid before the Assembly and lapse after set durations unless extended or replaced by Act."
    summary := "Allows temporary legislation by the President when NA is not in session, subject to duration/laying/approval rules."
    examples := ["During an urgent fiscal situation while NA is not in session, the President may issue a tax-related Ordinance.",
                 "On Assembly resumption, the Ordinance must be laid; if disapproved or time lapses, it ceases to operate."]
    related := ["70", "75", "127", "128"] }

def entry128 : ArticleEntry :=
  { title := "Power of Governor to promulgate Ordinances"
    text := "The Governor of a Province may promulgate Ordinances when the Provincial Assembly is not in session, subject to conditions similar to those for Presidential Ordinances."
    summary := "Provincial analogue of Article 89 for Governors when Provincial Assemblies are not in session."
    examples := ["A provincial public health emergency may be addressed via a Governor’s Ordinance pending Assembly session.",
                 "If the Provincial Assembly disapproves, the Ordinance ceases."]
    related := ["89", "130"] }

def entry175 : ArticleEntry :=
  { title := "Establishment and jurisdiction of courts"
    text := "There shall be a Supreme Court of Pakistan, a High Court for each Province, and such other courts as may be established by law."
    summary := "Establishes the court system and judicial structure in Pakistan."
    examples := ["Inter-provincial disputes fall within the higher judiciary’s constitutional scheme framed by Article 175.",
                 "Law students use 175 as the starting point for the hierarchy of courts."]
    related := ["176", "191"] }

def entry177 : ArticleEntry :=
  { title := "Appointment of Supreme Court Judges"
    text := "(Appointment provisions for the Chief Justice and other judges of the Supreme Court—see full text for detail)."
    summary := "Covers appointment of the CJP and other Supreme Court judges."
    examples := ["New judges of the Supreme Court are appointed under Article 177.",
                 "Bar associations track appointments through Article 177 procedures."]
    related := ["176", "178"] }

/-- `DEFAULT_KB` (src/app.py lines 41-97), an association list keyed by
article-number text. -/
def DEFAULT_KB : List (String × ArticleEntry) :=
  [("176", entry176), ("89", entry89), ("128", entry128),
   ("175", entry175), ("177", entry177)]

/-- `dict.get`: first binding of the key, if any. -/
def lookupKB (kb : List (String × ArticleEntry)) (k : String) : Option ArticleEntry :=
  match kb with
  | [] => none
  | (k₁, v) :: rest => if k = k₁ then some v else lookupKB rest k

/-- `{**base, **overlay}` at the level of observable behaviour: bindings
from `overlay` take precedence, `base` fills the gaps.  The only
observation the program ever makes of the merged dict is `KB.get`, so the
association list places the overriding bindings first; the key set is
exactly the union. -/
def mergeKB (base overlay : List (String × ArticleEntry)) : List (String × ArticleEntry) :=
  overlay ++ base.filter (fun p => (lookupKB overlay p.1).isNone)

/-- The three conditions `load_constitution_json` distinguishes: no file
at the path, a file whose parse raises, or a parsed JSON mapping. -/
inductive KBFile where
  | absent
  | malformed
  | parsed (data : List (String × ArticleEntry))

/-- Embedding of `load_constitution_json` (src/app.py lines 100-126):
merge the file's entries over `DEFAULT_KB` when the file parses; fall
back to `DEFAULT_KB` when it is absent or raises (the raise is caught,
reported via `st.error`, and the function returns normally). -/
def load_constitution_json : KBFile → List (String × ArticleEntry)
  | .absent => DEFAULT_KB
  | .malformed => DEFAULT_KB
  | .parsed data => mergeKB DEFAULT_KB data

/-!
Response formatter, `render_article_response` (src/app.py lines 148-191).
The function builds a list of markdown lines and joins them; the Lean
rendering names the conditional blocks so that theorems can speak about
them.
-/

/-- Lines 158-167: the "Authentic Wording or Summary" block body.  Short
wording (at most 600 characters) is quoted in full, with the summary
after it; long wording is replaced by the summary plus a deferral note. -/
def wordingSection (text summary : String) : List String :=
  if text.length ≤ 600 then
    ["**Authentic Wording:** " ++ text]
      ++ (if summary ≠ "" then ["\n**Summary:** " ++ summary] else [])
  else
    (if summary ≠ "" then ["**Summary:** " ++ summary] else [])
      ++ ["\n*(Full text is lengthy; refer to the official Gazette text.)*"]

/-- Lines 171-180: the "Simple Explanation" line. -/
def explanationLine (num summary : String) : String :=
  if num = "176" then
    "This Article sets how the Supreme Court is composed: one Chief Justice of Pakistan plus other judges. Parliament decides the number of judges; until it does, the President may fix the number. *(سادہ اردو: اس آرٹیکل میں سپریم کورٹ کی تشکیل کا طریقہ بتایا گیا ہے—چیف جسٹس اور دیگر ججز کی تعداد پارلیمنٹ یا عارضی طور پر صدر مقرر کر سکتے ہیں.)*"
  else if num = "89" then
    "This Article empowers the President to issue temporary laws (Ordinances) when the National Assembly is not in session, subject to time limits and laying before the Assembly for approval/disapproval. *(سادہ اردو: جب قومی اسمبلی کا اجلاس نہ ہو تو صدر وقتی قانون بطور آرڈیننس جاری کر سکتے ہیں، جو مخصوص مدت کے بعد ختم ہو سکتا ہے جب تک پارلیمنٹ اسے منظور نہ کر دے.)*"
  else if summary ≠ "" then summary
  else "This provision applies within Pakistan’s constitutional framework. See examples below."

/-- Lines 182-185: at most the first two examples, each as a bullet. -/
def exampleItems (examples : List String) : List String :=
  (examples.take 2).map (fun ex => "- " ++ ex)

/-- The full list of markdown lines the formatter appends. -/
def renderLines (num : String) (e : ArticleEntry) : List String :=
  let title := pyStrip e.title
  let text := pyStrip e.text
  let summary := pyStrip e.summary
  ["### 1) Correct Article/Law\n**Article " ++ num ++ " – " ++ title ++ "**"]
    ++ (if text ≠ "" then "\n### 2) Authentic Wording or Summary" :: wordingSection text summary else [])
    ++ ["\n### 3) Simple Explanation", explanationLine num summary]
    ++ (if e.examples ≠ [] then "\n### 4) Practical Example(s) / Scenario(s)" :: exampleItems e.examples else [])
    ++ (if e.related ≠ [] then ["\n### 5) Related Provisions",
          String.intercalate ", " (e.related.map (fun r => "Article " ++ r))] else [])

/-- `render_article_response`: the joined markdown block. -/
def render_article_response (num : String) (e : ArticleEntry) : String :=
  String.intercalate "\n" (renderLines num e)

/-- Lines 210-214: the repair suggestions for a KB miss. -/
def suggestionsFor (num : String) : List String :=
  if num = "175" ∨ num = "176" ∨ num = "177" ∨ num = "178" then
    ["176", "177", "175", "178"]
  else
    ["89", "128", "175", "176", "177"]

/-- Lines 216-221: the polite uncertainty message for a KB miss. -/
def miss_message (num : String) : String :=
  "I’m not fully certain without checking the official text for that Article number. If you can share the subject matter (e.g., ‘ordinances’, ‘composition of Supreme Court’), I can match it precisely. Likely relevant: "
    ++ String.intercalate ", " ((suggestionsFor num).map (fun s => "Article " ++ s))
    ++ "."

/-- Embedding of `handle_article_query` (src/app.py lines 194-221),
parameterised by the loaded KB (the source reads the module-level `KB`).
Returns `none` exactly when no article number is extracted. -/
def handle_article_query (kb : List (String × ArticleEntry)) (user_input : String) :
    Option String :=
  match extract_article_number user_input with
  | none => none
  | some num =>
    match lookupKB kb num with
    | some entry => some (render_article_response num entry)
    | none => some (miss_message num)

/-!
Scope classifier and router (src/app.py lines 319-342).
-/

/-- The keyword alternatives of the scope regex on line 329, in source
order. -/
def scope_keywords : List String :=
  ["pakistan", "pakistani", "constitution", "article", "ppc", "crpc",
   "family", "nikah", "khula", "court", "high court", "supreme court",
   "ordinance", "act", "law", "bylaws", "labour", "cyber", "pta", "fbr",
   "nab", "ipc"]

/-- The scope regex `\b(kw1|kw2|...)\b` (IGNORECASE) tried at one
position: some alternative matches here and is followed by a word
boundary.  Every keyword starts with a letter, so the leading `\b`
amounts to the previous character not being a word character. -/
def tryScopeAt (prevWord : Bool) (l : List Char) : Bool :=
  !prevWord && scope_keywords.any (fun k =>
    match stripPrefixCI k.data l with
    | some rest => headBoundary rest
    | none => false)

/-- `re.search` for the scope regex. -/
def scopeScan : Bool → List Char → Bool
  | _, [] => false
  | p, c :: rest => tryScopeAt p (c :: rest) || scopeScan (isWordChar c) rest

/-- Whether the hard scope check on line 329 finds a keyword. -/
def scope_match (s : String) : Bool :=
  scopeScan false s.data

/-- A history entry: `HumanMessage` or `AIMessage` content. -/
inductive Msg where
  | user (content : String)
  | assistant (content : String)
deriving DecidableEq

/-- What one press of the Ask button produces: the text shown to the
user, whether the query was routed at all (`answered = false` is the
empty-input warning), the new history, and whether the LLM chain and the
scope regex were evaluated. -/
structure RouteOutcome where
  response : String
  answered : Bool
  history : List Msg
  delegateCalled : Bool
  scopeChecked : Bool
deriving DecidableEq

/-- The refusal string of the hard scope check (line 330). -/
def refusal_message : String :=
  "Sorry, I can only provide information related to laws in Pakistan."

/-- Embedding of the routing block (src/app.py lines 319-342).
`delegate` stands for `chain.invoke` applied to the current history and
the new question.  `if user_input and user_input.strip():` is equivalent
to the stripped input being non-empty. -/
def route (kb : List (String × ArticleEntry)) (delegate : List Msg → String → String)
    (hist : List Msg) (user_input : String) : RouteOutcome :=
  if pyStrip user_input = "" then
    { response := "Please enter a question.", answered := false,
      history := hist, delegateCalled := false, scopeChecked := false }
  else
    match handle_article_query kb user_input with
    | some kb_answer =>
      { response := kb_answer, answered := true,
        history := hist ++ [Msg.user user_input, Msg.assistant kb_answer],
        delegateCalled := false, scopeChecked := false }
    | none =>
      if scope_match user_input then
        let r := delegate hist user_input
        { response := r, answered := true,
          history := hist ++ [Msg.user user_input, Msg.assistant r],
          delegateCalled := true, scopeChecked := true }
      else
        { response := refusal_message, answered := true,
          history := hist ++ [Msg.user user_input, Msg.assistant refusal_message],
          delegateCalled := false, scopeChecked := true }

/-- A fixed stand-in for the LLM chain, used to instantiate theorems at
concrete inputs. -/
def constDelegate : List Msg → String → String :=
  fun _ _ => "LLM answer"

/-!
Equivalence of the backtracking digit matcher with the "maximal digit
run" description.
-/

lemma isWordChar_of_isDigit {c : Char} (h : c.isDigit = true) : isWordChar c = true := by
  simp [isWordChar, Char.isAlphanum, h]

lemma matchDigitsB_eq (l : List Char) : matchDigitsB l = maxDigitRun l := by
  rcases l with _ | ⟨a, _ | ⟨b, _ | ⟨c, _ | ⟨d, tl⟩⟩⟩⟩
  · rfl
  · by_cases ha : a.isDigit = true
    · simp [matchDigitsB, tryLen, maxDigitRun, List.takeWhile, ha, headBoundary]
    · simp [matchDigitsB, tryLen, maxDigitRun, List.takeWhile, ha]
  · by_cases ha : a.isDigit = true
    · by_cases hb : b.isDigit = true
      · simp [matchDigitsB, tryLen, maxDigitRun, List.takeWhile, ha, hb, headBoundary]
      · by_cases hwb : isWordChar b = true
        · simp [matchDigitsB, tryLen, maxDigitRun, List.takeWhile, ha, hb, hwb, headBoundary]
        · simp [matchDigitsB, tryLen, maxDigitRun, List.takeWhile, ha, hb, hwb, headBoundary]
    · simp [matchDigitsB, tryLen, maxDigitRun, List.takeWhile, ha]
  · by_cases ha : a.isDigit = true
    · by_cases hb : b.isDigit = true
      · by_cases hc : c.isDigit = true
        · simp [matchDigitsB, tryLen, maxDigitRun, List.takeWhile, ha, hb, hc, headBoundary]
        · by_cases hwc : isWordChar c = true
          · simp [matchDigitsB, tryLen, maxDigitRun, List.takeWhile, ha, hb, hc, hwc,
              headBoundary, isWordChar_of_isDigit hb]
          · simp [matchDigitsB, tryLen, maxDigitRun, List.takeWhile, ha, hb, hc, hwc, headBoundary]
      · by_cases hwb : isWordChar b = true
        · simp [matchDigitsB, tryLen, maxDigitRun, List.takeWhile, ha, hb, hwb, headBoundary]
        · simp [matchDigitsB, tryLen, maxDigitRun, List.takeWhile, ha, hb, hwb, headBoundary]
    · simp [matchDigitsB, tryLen, maxDigitRun, List.takeWhile, ha]
  · by_cases ha : a.isDigit = true
    · by_cases hb : b.isDigit = true
      · by_cases hc : c.isDigit = true
        · by_cases hd : d.isDigit = true
          · simp [matchDigitsB, tryLen, maxDigitRun, List.takeWhile, ha, hb, hc, hd,
              headBoundary, isWordChar_of_isDigit hd, isWordChar_of_isDigit hc,
              isWordChar_of_isDigit hb]
          · by_cases hwd : isWordChar d = true
            · simp [matchDigitsB, tryLen, maxDigitRun, List.takeWhile, ha, hb, hc, hd, hwd,
                headBoundary, isWordChar_of_isDigit hc, isWordChar_of_isDigit hb]
            · simp [matchDigitsB, tryLen, maxDigitRun, List.takeWhile, ha, hb, hc, hd, hwd,
                headBoundary]
        · by_cases hwc : isWordChar c = true
          · simp [matchDigitsB, tryLen, maxDigitRun, List.takeWhile, ha, hb, hc, hwc,
              headBoundary, isWordChar_of_isDigit hb]
          · simp [matchDigitsB, tryLen, maxDigitRun, List.takeWhile, ha, hb, hc, hwc, headBoundary]
      · by_cases hwb : isWordChar b = true
        · simp [matchDigitsB, tryLen, maxDigitRun, List.takeWhile, ha, hb, hwb, headBoundary]
        · simp [matchDigitsB, tryLen, maxDigitRun, List.takeWhile, ha, hb, hwb, headBoundary]
    · simp [matchDigitsB, tryLen, maxDigitRun, List.takeWhile, ha]

/-!
The case-insensitive prefix matcher as take/map, and the per-position
matchers of the code against those of the spec reading.
-/

lemma stripPrefixCI_eq (pat : List Char) : ∀ l : List Char,
    stripPrefixCI pat l =
      if (l.take pat.length).map Char.toLower = pat then some (l.drop pat.length) else none := by
  induction pat with
  | nil => intro l; simp [stripPrefixCI]
  | cons p ps ih =>
    intro l
    cases l with
    | nil => simp [stripPrefixCI]
    | cons c cs =>
      by_cases h : Char.toLower c = p
      · simp [stripPrefixCI, h, ih cs]
      · simp [stripPrefixCI, h]

lemma tryArticleNumAt_eq_spec : tryArticleNumAt = specArticleNumAt := by
  funext p l
  unfold tryArticleNumAt specArticleNumAt
  by_cases hp : p
  · simp [hp]
  · simp only [hp, if_false]
    rw [stripPrefixCI_eq]
    have hlen : articleChars.length = 7 := rfl
    rw [hlen]
    by_cases harticle : (l.take 7).map Char.toLower = articleChars
    · rw [if_pos harticle, if_pos harticle]
      rcases hsp : (l.drop 7).takeWhile isSpaceChar with _ | ⟨s, sp⟩
      · simp [hsp]
      · simp [hsp, matchDigitsB_eq]
    · rw [if_neg harticle, if_neg harticle]

lemma tryBareNumAt_eq_spec : tryBareNumAt = specBareNumAt := by
  funext p l
  unfold tryBareNumAt specBareNumAt
  by_cases hp : p <;> simp [hp, matchDigitsB_eq]

/-!
The left-to-right scan equals "value at the first matching position".
-/

lemma findSomeMap (f : Nat → Option (List Char)) (g : Nat → Nat) :
    ∀ l : List Nat, (l.map g).findSome? f = l.findSome? (fun i => f (g i)) := by
  intro l
  induction l with
  | nil => rfl
  | cons a l ih => simp [List.findSome?, ih]

lemma findSomeCongr (f g : Nat → Option (List Char)) :
    ∀ l : List Nat, (∀ i ∈ l, f i = g i) → l.findSome? f = l.findSome? g := by
  intro l
  induction l with
  | nil => intro _; rfl
  | cons a l ih =>
    intro h
    have ha := h a (List.mem_cons_self a l)
    simp only [List.findSome?, ha]
    cases g a with
    | none => exact ih (fun i hi => h i (List.mem_cons_of_mem a hi))
    | some v => rfl

lemma prevFlag_cons (p : Bool) (c : Char) (rest : List Char) (i : Nat) :
    prevFlag p (c :: rest) (i + 1) = prevFlag (isWordChar c) rest i := by
  cases i with
  | zero => rfl
  | succ j => rfl

lemma scanList_eq_firstMatch (T : Bool → List Char → Option (List Char)) :
    ∀ (l : List Char) (p : Bool), scanList T p l = firstMatch T p l := by
  intro l
  induction l with
  | nil => intro p; rfl
  | cons c rest ih =>
    intro p
    show (match T p (c :: rest) with
          | some r => some r
          | none => scanList T (isWordChar c) rest) = firstMatch T p (c :: rest)
    unfold firstMatch
    rw [show (c :: rest).length = rest.length + 1 from rfl, List.range_succ_eq_map]
    simp only [List.findSome?]
    have h0 : T (prevFlag p (c :: rest) 0) ((c :: rest).drop 0) = T p (c :: rest) := rfl
    rw [h0]
    cases hT : T p (c :: rest) with
    | some r => rfl
    | none =>
      rw [findSomeMap]
      rw [findSomeCongr _ (fun i => T (prevFlag (isWordChar c) rest i) (rest.drop i)) _ ?_]
      · exact (ih (isWordChar c)).trans rfl
      · intro i _
        rw [prevFlag_cons]
        rfl

/-- Claim C2: the extractor returns the first case-insensitive match of
the word "article" followed by whitespace and a 1-3 digit number, with
leading zeros stripped; otherwise, when "article" occurs anywhere in the
lowercased text and a standalone 1-3 digit number occurs anywhere, the
first such standalone number; otherwise nothing. -/
theorem claim_c2_extractor (text : String) :
    extract_article_number text = extract_spec text := by
  unfold extract_article_number extract_spec
  rw [scanList_eq_firstMatch, scanList_eq_firstMatch,
    tryArticleNumAt_eq_spec, tryBareNumAt_eq_spec]

/-!
A blank input cannot carry an article reference, so the router's
empty-input guard and the article branch never overlap.
-/

lemma space_cases {c : Char} (h : isSpaceChar c = true) :
    c = ' ' ∨ c = '\t' ∨ c = '\n' ∨ c = '\r' ∨ c = '\x0b' ∨ c = '\x0c' := by
  have h' := h
  simp only [isSpaceChar, Bool.or_eq_true, beq_iff_eq] at h'
  tauto

lemma space_toLower_ne {c : Char} (h : isSpaceChar c = true) : Char.toLower c ≠ 'a' := by
  rcases space_cases h with h | h | h | h | h | h <;> subst h <;> decide

lemma space_not_digit {c : Char} (h : isSpaceChar c = true) : c.isDigit = false := by
  rcases space_cases h with h | h | h | h | h | h <;> subst h <;> decide

lemma scanList_article_none {l : List Char} (h : ∀ c ∈ l, isSpaceChar c = true) :
    ∀ p, scanList tryArticleNumAt p l = none := by
  induction l with
  | nil => intro p; rfl
  | cons c rest ih =>
    intro p
    have hc := h c (List.mem_cons_self c rest)
    have hT : tryArticleNumAt p (c :: rest) = none := by
      unfold tryArticleNumAt
      have : stripPrefixCI articleChars (c :: rest) = none := by
        show (if Char.toLower c = 'a' then stripPrefixCI "rticle".data rest else none) = none
        rw [if_neg (space_toLower_ne hc)]
      rw [this]
      simp
    show (match tryArticleNumAt p (c :: rest) with
          | some r => some r
          | none => scanList tryArticleNumAt (isWordChar c) rest) = none
    rw [hT]
    exact ih (fun x hx => h x (List.mem_cons_of_mem c hx)) (isWordChar c)

lemma scanList_bare_none {l : List Char} (h : ∀ c ∈ l, isSpaceChar c = true) :
    ∀ p, scanList tryBareNumAt p l = none := by
  induction l with
  | nil => intro p; rfl
  | cons c rest ih =>
    intro p
    have hc := h c (List.mem_cons_self c rest)
    have hT : tryBareNumAt p (c :: rest) = none := by
      unfold tryBareNumAt
      rw [matchDigitsB_eq]
      unfold maxDigitRun
      simp [List.takeWhile, space_not_digit hc]
    show (match tryBareNumAt p (c :: rest) with
          | some r => some r
          | none => scanList tryBareNumAt (isWordChar c) rest) = none
    rw [hT]
    exact ih (fun x hx => h x (List.mem_cons_of_mem c hx)) (isWordChar c)

lemma allSpace_of_strip_empty {q : String} (h : pyStrip q = "") :
    ∀ c ∈ q.data, isSpaceChar c = true := by
  have hdata : pyStripList q.data = [] := congrArg String.data h
  unfold pyStripList at hdata
  rw [List.reverse_eq_nil_iff, List.dropWhile_eq_nil_iff] at hdata
  intro c hc
  rcases List.mem_append.1 ((List.takeWhile_append_dropWhile (p := isSpaceChar)
      (l := q.data)) ▸ hc) with hmem | hmem
  · exact List.mem_takeWhile_imp hmem
  · exact hdata c (List.mem_reverse.2 hmem)

lemma extract_none_of_blank {q : String} (h : pyStrip q = "") :
    extract_article_number q = none := by
  unfold extract_article_number
  rw [scanList_article_none (allSpace_of_strip_empty h),
    scanList_bare_none (allSpace_of_strip_empty h)]

/-- Claim C1: whenever an article number is extracted from the query,
the router's answer is exactly the KB-lookup result (the formatted block
on a hit, the polite miss message on a miss), and neither the LLM chain
nor the scope regex is evaluated. -/
theorem claim_c1_article_shortcircuit
    (kb : List (String × ArticleEntry)) (delegate : List Msg → String → String)
    (hist : List Msg) (q num : String)
    (h : extract_article_number q = some num) :
    (route kb delegate hist q).response =
      (match lookupKB kb num with
       | some entry => render_article_response num entry
       | none => miss_message num) ∧
    (route kb delegate hist q).delegateCalled = false ∧
    (route kb delegate hist q).scopeChecked = false := by
  have hq : ¬ pyStrip q = "" := by
    intro hblank
    rw [extract_none_of_blank hblank] at h
    exact Option.noConfusion h
  unfold route handle_article_query
  rw [if_neg hq, h]
  cases hkb : lookupKB kb num <;> simp [hkb]

set_option maxRecDepth 8192 in
/-- Claim C1 witness: concrete run on "Article 176" against the default
KB. -/
theorem claim_c1_witness :
    extract_article_number "Article 176" = some "176" ∧
    ((route DEFAULT_KB constDelegate [] "Article 176").response =
      (match lookupKB DEFAULT_KB "176" with
       | some entry => render_article_response "176" entry
       | none => miss_message "176") ∧
     (route DEFAULT_KB constDelegate [] "Article 176").delegateCalled = false ∧
     (route DEFAULT_KB constDelegate [] "Article 176").scopeChecked = false) :=
  ⟨by decide, claim_c1_article_shortcircuit DEFAULT_KB constDelegate [] "Article 176" "176" (by decide)⟩

/-- Claim C5: a processed query with no extractable article number and no
scope keyword gets exactly the fixed refusal string, and the LLM chain is
not invoked. -/
theorem claim_c5_refusal
    (kb : List (String × ArticleEntry)) (delegate : List Msg → String → String)
    (hist : List Msg) (q : String)
    (hq : pyStrip q ≠ "")
    (hart : extract_article_number q = none)
    (hscope : scope_match q = false) :
    (route kb delegate hist q).response =
      "Sorry, I can only provide information related to laws in Pakistan." ∧
    (route kb delegate hist q).delegateCalled = false := by
  unfold route handle_article_query
  rw [if_neg hq, hart]
  simp [hscope, refusal_message]

set_option maxRecDepth 8192 in
/-- Claim C5 witness: the out-of-scope scenario query. -/
theorem claim_c5_witness :
    pyStrip "What is the weather today?" ≠ "" ∧
    extract_article_number "What is the weather today?" = none ∧
    scope_match "What is the weather today?" = false ∧
    ((route DEFAULT_KB constDelegate [] "What is the weather today?").response =
      "Sorry, I can only provide information related to laws in Pakistan." ∧
     (route DEFAULT_KB constDelegate [] "What is the weather today?").delegateCalled = false) :=
  ⟨by decide, by decide, by decide,
   claim_c5_refusal DEFAULT_KB constDelegate [] "What is the weather today?" (by decide) (by decide) (by decide)⟩

/-- Claim C6: every processed (non-blank) query appends exactly the user
entry followed by the assistant entry carrying the produced response, in
that order, to the unchanged previous history — in all branches. -/
theorem claim_c6_history
    (kb : List (String × ArticleEntry)) (delegate : List Msg → String → String)
    (hist : List Msg) (q : String)
    (hq : pyStrip q ≠ "") :
    (route kb delegate hist q).history =
      hist ++ [Msg.user q, Msg.assistant (route kb delegate hist q).response] := by
  unfold route
  rw [if_neg hq]
  cases handle_article_query kb q with
  | some a => rfl
  | none =>
    by_cases hs : scope_match q = true
    · simp [hs]
    · simp [hs]

set_option maxRecDepth 8192 in
/-- Claim C6 witness: concrete run through the delegate branch. -/
theorem claim_c6_witness :
    pyStrip "What is khula under Pakistani law?" ≠ "" ∧
    (route DEFAULT_KB constDelegate [] "What is khula under Pakistani law?").history =
      [] ++ [Msg.user "What is khula under Pakistani law?",
             Msg.assistant (route DEFAULT_KB constDelegate []
               "What is khula under Pakistani law?").response] :=
  ⟨by decide, claim_c6_history DEFAULT_KB constDelegate [] "What is khula under Pakistani law?" (by decide)⟩

/-- Claim C7: a blank (empty or whitespace-only) query is rejected before
routing: the outcome is the prompt-for-input warning, the history is
untouched, and neither the LLM chain nor the scope regex is evaluated. -/
theorem claim_c7_blank_rejected
    (kb : List (String × ArticleEntry)) (delegate : List Msg → String → String)
    (hist : List Msg) (q : String)
    (hq : pyStrip q = "") :
    route kb delegate hist q =
      { response := "Please enter a question.", answered := false,
        history := hist, delegateCalled := false, scopeChecked := false } := by
  unfold route
  rw [if_pos hq]

set_option maxRecDepth 8192 in
/-- Claim C7 witness: a whitespace-only query. -/
theorem claim_c7_witness :
    pyStrip "   " = "" ∧
    route DEFAULT_KB constDelegate [Msg.user "hi"] "   " =
      { response := "Please enter a question.", answered := false,
        history := [Msg.user "hi"], delegateCalled := false, scopeChecked := false } :=
  ⟨by decide, claim_c7_blank_rejected DEFAULT_KB constDelegate [Msg.user "hi"] "   " (by decide)⟩

set_option maxRecDepth 8192 in
/-- Claim C3: "Article 089", "Article 89" and "article 89" all extract
the canonical number "89", so `handle_article_query` treats the three
queries identically against every knowledge base. -/
theorem claim_c3_padding_insensitive :
    extract_article_number "Article 089" = some "89" ∧
    extract_article_number "Article 89" = some "89" ∧
    extract_article_number "article 89" = some "89" ∧
    ∀ kb, handle_article_query kb "Article 089" = handle_article_query kb "Article 89" ∧
          handle_article_query kb "Article 089" = handle_article_query kb "article 89" := by
  have h1 : extract_article_number "Article 089" = some "89" := by decide
  have h2 : extract_article_number "Article 89" = some "89" := by decide
  have h3 : extract_article_number "article 89" = some "89" := by decide
  refine ⟨h1, h2, h3, fun kb => ⟨?_, ?_⟩⟩
  · unfold handle_article_query
    rw [h1, h2]
  · unfold handle_article_query
    rw [h1, h3]

/-!
Knowledge-base loading: lookup through the merged association list.
-/

lemma lookup_append (a b : List (String × ArticleEntry)) (k : String) :
    lookupKB (a ++ b) k =
      match lookupKB a k with
      | some v => some v
      | none => lookupKB b k := by
  induction a with
  | nil => rfl
  | cons p a ih =>
    rcases p with ⟨k₁, v₁⟩
    by_cases h : k = k₁
    · simp [lookupKB, h]
    · simp [lookupKB, h, ih]

lemma lookup_filter_of_none (o : List (String × ArticleEntry)) (k : String)
    (h : lookupKB o k = none) (b : List (String × ArticleEntry)) :
    lookupKB (b.filter (fun p => (lookupKB o p.1).isNone)) k = lookupKB b k := by
  induction b with
  | nil => rfl
  | cons p b ih =>
    rcases p with ⟨k₁, v₁⟩
    by_cases hk : k = k₁
    · subst hk
      have hc : (lookupKB o k).isNone = true := by rw [h]; rfl
      simp [List.filter, hc, lookupKB]
    · cases hc : (lookupKB o k₁).isNone
      · simp [List.filter, hc, lookupKB, hk, ih]
      · simp [List.filter, hc, lookupKB, hk, ih]

/-- Claim C8: the loader yields exactly the built-in defaults when the
file is absent or malformed (the parse failure is caught and the loader
returns normally), and on a successful parse the external bindings win
on every key while the defaults fill the gaps. -/
theorem claim_c8_kb_load :
    load_constitution_json KBFile.absent = DEFAULT_KB ∧
    load_constitution_json KBFile.malformed = DEFAULT_KB ∧
    ∀ data k, lookupKB (load_constitution_json (KBFile.parsed data)) k =
      match lookupKB data k with
      | some v => some v
      | none => lookupKB DEFAULT_KB k := by
  refine ⟨rfl, rfl, fun data k => ?_⟩
  show lookupKB (mergeKB DEFAULT_KB data) k = _
  unfold mergeKB
  rw [lookup_append]
  cases hd : lookupKB data k with
  | some v => rfl
  | none => exact lookup_filter_of_none data k hd DEFAULT_KB

/-!
Claim C9 concerns key canonicity of the loaded KB.
-/

/-- Canonical integer text: nonempty, all digits, no leading zero except
for "0" itself. -/
def canonicalIntText (s : String) : Bool :=
  match s.data with
  | [] => false
  | c :: cs => c.isDigit && cs.all Char.isDigit && (c != '0' || cs.isEmpty)

/-- All keys of an association list are canonical integer text. -/
def allKeysCanonical (kb : List (String × ArticleEntry)) : Bool :=
  kb.all (fun p => canonicalIntText p.1)

/-- A minimal record standing for an entry of an external KB file. -/
def blankEntry : ArticleEntry :=
  { title := "", text := "", summary := "", examples := [], related := [] }

set_option maxRecDepth 8192 in
/-- Claim C9 counterexample: an external file spelling its key with a
leading zero ("042") puts that very key into the loaded KB — no
normalization happens — and the entry is unreachable: "Article 042"
extracts the canonical "42", which the loaded KB does not contain. -/
theorem claim_c9_counterexample :
    lookupKB (load_constitution_json (KBFile.parsed [("042", blankEntry)])) "042" =
      some blankEntry ∧
    canonicalIntText "042" = false ∧
    extract_article_number "Article 042" = some "42" ∧
    lookupKB (load_constitution_json (KBFile.parsed [("042", blankEntry)])) "42" = none := by
  refine ⟨by decide, by decide, by decide, by decide⟩

/-- Claim C9 amended: the built-in default KB has only canonical keys,
and the loader preserves canonicity — but only conditionally: external
keys are copied verbatim, so the loaded KB's keys are canonical exactly
when the external file's are (unconditionally so when no file
contributes). -/
theorem claim_c9_amended :
    allKeysCanonical DEFAULT_KB = true ∧
    (∀ data, allKeysCanonical data = true →
      allKeysCanonical (load_constitution_json (KBFile.parsed data)) = true) ∧
    allKeysCanonical (load_constitution_json KBFile.absent) = true ∧
    allKeysCanonical (load_constitution_json KBFile.malformed) = true := by
  refine ⟨by decide, fun data hd => ?_, by decide, by decide⟩
  have hbase : ∀ p ∈ DEFAULT_KB, canonicalIntText p.1 = true := by decide
  have hdata : ∀ p ∈ data, canonicalIntText p.1 = true := by
    simpa [allKeysCanonical, List.all_eq_true] using hd
  show allKeysCanonical (mergeKB DEFAULT_KB data) = true
  simp only [allKeysCanonical, mergeKB, List.all_append, Bool.and_eq_true, List.all_eq_true]
  exact ⟨fun p hp => hdata p hp, fun p hp => hbase p (List.mem_filter.1 hp).1⟩

/-- Claim C9 amended witness: a canonical-keyed external file loads to a
canonical-keyed KB. -/
theorem claim_c9_amended_witness :
    allKeysCanonical [("300", blankEntry)] = true ∧
    allKeysCanonical (load_constitution_json (KBFile.parsed [("300", blankEntry)])) = true :=
  ⟨by decide, claim_c9_amended.2.1 [("300", blankEntry)] (by decide)⟩

set_option maxRecDepth 8192 in
/-- Claim C10 counterexample: for the missing number "999" the miss
branch is taken and its suggestion list is the fixed general list, which
does not contain "178". -/
theorem claim_c10_counterexample :
    extract_article_number "Article 999" = some "999" ∧
    lookupKB (load_constitution_json KBFile.absent) "999" = none ∧
    handle_article_query (load_constitution_json KBFile.absent) "Article 999" =
      some (miss_message "999") ∧
    suggestionsFor "999" = ["89", "128", "175", "176", "177"] ∧
    ("178" ∈ suggestionsFor "999" → False) := by
  refine ⟨by decide, by decide, by decide, by decide, by decide⟩

/-- Claim C10 amended: the suggestion list is never empty; it contains
"178" (a number absent from the built-in default KB) exactly when the
missing number is itself one of 175, 176, 177, 178 — and then it also
contains that very number, so the hint can suggest the article just
reported unverifiable; for every other number the list is the fixed
general one, without "178". -/
theorem claim_c10_suggestions (num : String) :
    suggestionsFor num ≠ [] ∧
    lookupKB DEFAULT_KB "178" = none ∧
    (if num = "175" ∨ num = "176" ∨ num = "177" ∨ num = "178"
     then num ∈ suggestionsFor num ∧ "178" ∈ suggestionsFor num
     else suggestionsFor num = ["89", "128", "175", "176", "177"] ∧
       "178" ∉ suggestionsFor num) := by
  refine ⟨?_, by decide, ?_⟩
  · unfold suggestionsFor
    split <;> simp
  · by_cases h : num = "175" ∨ num = "176" ∨ num = "177" ∨ num = "178"
    · rw [if_pos h]
      rcases h with h | h | h | h <;> subst h <;> decide
    · rw [if_neg h]
      unfold suggestionsFor
      rw [if_neg h]
      exact ⟨rfl, by decide⟩

/-!
Claim C4: the formatter's 600-character rule and the two-example cap.
-/

lemma wording_ne_summary (s m : String) :
    "**Authentic Wording:** " ++ s ≠ "**Summary:** " ++ m := by
  intro h
  have h2 := congrArg String.data h
  rw [String.data_append, String.data_append] at h2
  have h3 := congrArg (fun l => l[2]?) h2
  simp only [] at h3
  rw [List.getElem?_append_left (by decide), List.getElem?_append_left (by decide)] at h3
  exact absurd h3 (by decide)

lemma wording_ne_note (s : String) :
    "**Authentic Wording:** " ++ s ≠
      "\n*(Full text is lengthy; refer to the official Gazette text.)*" := by
  intro h
  have h2 := congrArg String.data h
  rw [String.data_append] at h2
  have h3 := congrArg (fun l => l[0]?) h2
  simp only [] at h3
  rw [List.getElem?_append_left (by decide)] at h3
  exact absurd h3 (by decide)

/-- Claim C4: on a KB hit with non-blank wording, the wording block is
part of the rendered output; the full wording is quoted exactly when its
stripped length is at most 600 characters, and otherwise the block holds
the summary (when present) and the deferral note but not the full
wording; at most two example bullets are rendered, all of them part of
the output. -/
theorem claim_c4_formatter (num : String) (e : ArticleEntry)
    (h : pyStrip e.text ≠ "") :
    wordingSection (pyStrip e.text) (pyStrip e.summary) ⊆ renderLines num e ∧
    (if (pyStrip e.text).length ≤ 600
     then ("**Authentic Wording:** " ++ pyStrip e.text) ∈
            wordingSection (pyStrip e.text) (pyStrip e.summary)
     else ("**Authentic Wording:** " ++ pyStrip e.text) ∉
            wordingSection (pyStrip e.text) (pyStrip e.summary) ∧
          "\n*(Full text is lengthy; refer to the official Gazette text.)*" ∈
            wordingSection (pyStrip e.text) (pyStrip e.summary) ∧
          (pyStrip e.summary ≠ "" →
            ("**Summary:** " ++ pyStrip e.summary) ∈
              wordingSection (pyStrip e.text) (pyStrip e.summary))) ∧
    (exampleItems e.examples).length ≤ 2 ∧
    exampleItems e.examples ⊆ renderLines num e := by
  refine ⟨?_, ?_, ?_, ?_⟩
  · intro x hx
    simp only [renderLines, h, ne_eq, not_false_iff, if_true, List.mem_append,
      List.mem_cons, List.mem_singleton]
    tauto
  · by_cases hlen : (pyStrip e.text).length ≤ 600
    · rw [if_pos hlen]
      unfold wordingSection
      rw [if_pos hlen]
      simp
    · rw [if_neg hlen]
      refine ⟨?_, ?_, ?_⟩
      · intro hx
        unfold wordingSection at hx
        rw [if_neg hlen] at hx
        rcases List.mem_append.1 hx with hx | hx
        · by_cases hm : pyStrip e.summary ≠ ""
          · rw [if_pos hm] at hx
            exact wording_ne_summary (pyStrip e.text) (pyStrip e.summary)
              (List.mem_singleton.1 hx)
          · rw [if_neg hm] at hx
            exact absurd hx (List.not_mem_nil _)
        · exact wording_ne_note (pyStrip e.text) (List.mem_singleton.1 hx)
      · unfold wordingSection
        rw [if_neg hlen]
        simp
      · intro hm
        unfold wordingSection
        rw [if_neg hlen, if_pos hm]
        simp
  · simp only [exampleItems, List.length_map, List.length_take]
    omega
  · by_cases hex : e.examples = []
    · simp [exampleItems, hex]
    · intro x hx
      have hx' : x ∈ exampleItems e.examples := hx
      simp only [renderLines, hex, h, ne_eq, not_false_iff, if_true, List.mem_append,
        List.mem_cons, List.mem_singleton]
      tauto

set_option maxRecDepth 8192 in
/-- Claim C4 witness: the default entry for Article 176 (short wording,
two examples). -/
theorem claim_c4_witness :
    pyStrip entry176.text ≠ "" ∧
    (wordingSection (pyStrip entry176.text) (pyStrip entry176.summary) ⊆
        renderLines "176" entry176 ∧
     (if (pyStrip entry176.text).length ≤ 600
      then ("**Authentic Wording:** " ++ pyStrip entry176.text) ∈
             wordingSection (pyStrip entry176.text) (pyStrip entry176.summary)
      else ("**Authentic Wording:** " ++ pyStrip entry176.text) ∉
             wordingSection (pyStrip entry176.text) (pyStrip entry176.summary) ∧
           "\n*(Full text is lengthy; refer to the official Gazette text.)*" ∈
             wordingSection (pyStrip entry176.text) (pyStrip entry176.summary) ∧
           (pyStrip entry176.summary ≠ "" →
             ("**Summary:** " ++ pyStrip entry176.summary) ∈
               wordingSection (pyStrip entry176.text) (pyStrip entry176.summary))) ∧
     (exampleItems entry176.examples).length ≤ 2 ∧
     exampleItems entry176.examples ⊆ renderLines "176" entry176) :=
  ⟨by decide, claim_c4_formatter "176" entry176 (by decide)⟩

end PakLaw
